import Mathlib

/-!
Shallow embedding of `src/platform/ssl/itls/HAL_TLS_itls.c`, the iTLS HAL
adapter of iotkit-embedded, together with theorems settling the frozen
claims about it.

The adapter wraps an external mbedTLS-derived library.  Calls into that
library are modelled by traces of their successive return values (the
`trace : List Int` arguments below); the adapter's own control flow, state
updates and returned values are translated line by line from the C source.
Machine integers are modelled by `Nat`/`Int`: the quantities involved
(byte counts bounded by an `int` length argument, small error codes) never
reach a 32-bit wrap in any execution the claims quantify over.
-/

set_option autoImplicit false

namespace ITLS

/-! ### Error-code constants from the wrapped library's headers
(`itls/ssl.h`, `itls/net.h`, standard mbedTLS 2.x values). -/

def MBEDTLS_ERR_SSL_WANT_READ : Int := -26880
def MBEDTLS_ERR_SSL_WANT_WRITE : Int := -26752
def MBEDTLS_ERR_SSL_TIMEOUT : Int := -26624
def MBEDTLS_ERR_SSL_PEER_CLOSE_NOTIFY : Int := -30848
def MBEDTLS_ERR_SSL_CONN_EOF : Int := -29312
def MBEDTLS_ERR_SSL_SESSION_TICKET_EXPIRED : Int := -28416
def MBEDTLS_ERR_SSL_NON_FATAL : Int := -26240
def MBEDTLS_ERR_NET_SOCKET_FAILED : Int := -66
def MBEDTLS_ERR_NET_UNKNOWN_HOST : Int := -82
def MBEDTLS_ERR_NET_CONNECT_FAILED : Int := -68
def MBEDTLS_SSL_MAJOR_VERSION_3 : Nat := 3
def MBEDTLS_SSL_MINOR_VERSION_3 : Nat := 3

/-- `SEND_TIMEOUT_SECONDS` from line 43 of the source. -/
def SEND_TIMEOUT_SECONDS : Int := 10

/-! ### The read loop, `_network_ssl_read` (lines 280-328)

`trace` is the sequence of return values produced by the successive
`mbedtls_ssl_read` calls of this invocation.  `readLen` is the local
`uint32_t readLen`, `netStatus` the file-scope `static int net_status`
(shared by every handle).  The result pairs the C return value with the
value of `net_status` after the call; `none` means the modelled trace ran
out before the loop finished (the C loop would keep calling the library).
-/

def sslReadLoop (len : Nat) : List Int → Nat → Int → Option (Int × Int)
  | trace, readLen, netStatus =>
    if readLen < len then
      match trace with
      | [] => none
      | ret :: rest =>
        if 0 < ret then
          sslReadLoop len rest (readLen + ret.toNat) 0
        else if ret = 0 then
          some (if netStatus = -2 then (-2, netStatus) else ((readLen : Int), netStatus))
        else if ret = MBEDTLS_ERR_SSL_PEER_CLOSE_NOTIFY then
          if 0 < readLen then some ((readLen : Int), -2) else some (-2, -2)
        else if ret = MBEDTLS_ERR_SSL_TIMEOUT ∨ ret = MBEDTLS_ERR_SSL_CONN_EOF ∨
                ret = MBEDTLS_ERR_SSL_SESSION_TICKET_EXPIRED ∨ ret = MBEDTLS_ERR_SSL_NON_FATAL then
          some ((readLen : Int), netStatus)
        else
          some (-1, -1)
    else
      some (if 0 < readLen then ((readLen : Int), netStatus) else (netStatus, netStatus))

/-! ### The write loop, `_network_ssl_write` (lines 330-361)

`trace` is the sequence of `mbedtls_ssl_write` return values,
`writtenLen` the local `uint32_t writtenLen`.  The result pairs the C
return value with the final `writtenLen` (the bytes actually consumed by
the library), so theorems can compare the two. -/

def sslWriteLoop (len : Nat) : List Int → Nat → Option (Int × Nat)
  | trace, writtenLen =>
    if writtenLen < len then
      match trace with
      | [] => none
      | ret :: rest =>
        if 0 < ret then
          sslWriteLoop len rest (writtenLen + ret.toNat)
        else if ret = 0 then
          some (0, writtenLen)
        else
          some (-1, writtenLen)
    else
      some ((writtenLen : Int), writtenLen)

/-! ### Configuration context and handle

`mbedtls_ssl_config` is opaque external state; the model records only the
fields this file writes: the pinned protocol versions
(`mbedtls_ssl_conf_max_version` / `_min_version`, lines 225-226), the
out-of-band authentication extra (`mbedtls_ssl_conf_auth_extra`, line
234) and the read timeout (`mbedtls_ssl_conf_read_timeout`, line 290).
`TLSDataParams` is the heap-allocated handle; its `ssl` and `fd` members
are opaque library state with no fields this file reads, so only `conf`
is carried. -/

structure SslConf where
  maxVer : Nat × Nat
  minVer : Nat × Nat
  authExtraLen : Option Nat
  readTimeout : Option Int
deriving DecidableEq

/-- Zeroed configuration produced by the `mbedtls_*_init` calls. -/
def initConf : SslConf :=
  { maxVer := (0, 0), minVer := (0, 0), authExtraLen := none, readTimeout := none }

structure TLSDataParams where
  conf : SslConf
deriving DecidableEq

/-! ### HAL entry points for read and write

`HAL_iTLS_Read` (lines 415-418) forwards to `_network_ssl_read`, which
first calls `mbedtls_ssl_conf_read_timeout(&conf, timeout_ms)` and then
runs the read loop.  The `net_status` static is global state, so it is a
separate parameter, not a field of the handle.  `HAL_iTLS_Write` (lines
410-413) forwards to `_network_ssl_write`, whose body never mentions its
`timeout_ms` parameter. -/

def network_ssl_read (netStatus : Int) (p : TLSDataParams) (trace : List Int) (len : Nat)
    (timeout_ms : Int) : Option (Int × Int) × TLSDataParams :=
  (sslReadLoop len trace 0 netStatus,
   { p with conf := { p.conf with readTimeout := some timeout_ms } })

def HAL_iTLS_Read (netStatus : Int) (p : TLSDataParams) (trace : List Int) (len : Nat)
    (timeout_ms : Int) : Option (Int × Int) × TLSDataParams :=
  network_ssl_read netStatus p trace len timeout_ms

def network_ssl_write (p : TLSDataParams) (trace : List Int) (len : Nat)
    (timeout_ms : Int) : Option (Int × Nat) × TLSDataParams :=
  (sslWriteLoop len trace 0, p)

def HAL_iTLS_Write (p : TLSDataParams) (trace : List Int) (len : Nat)
    (timeout_ms : Int) : Option (Int × Nat) × TLSDataParams :=
  network_ssl_write p trace len timeout_ms

/-! ### Characterization helpers for the two loops -/

/-- Values possibly held by the static `net_status` variable. -/
def NetStatusOK (ns : Int) : Prop := ns = 0 ∨ ns = -1 ∨ ns = -2

/-! ### The Linux connect helper, `mbedtls_net_connect_timeout` (lines 115-167)

Name resolution is modelled by `resolved`: `none` when `getaddrinfo`
fails, otherwise the list of resolved addresses, each tagged with the
outcome the OS gives the attempt on it (`socket()` fails; `connect` fails;
`connect` succeeds).  The loop tries them in order.  `NetEvent` records
the socket-level side effects (index `i` numbers the addresses); the
result triple is (return value, index of the connected address if any,
events in order). -/

inductive AttemptResult where
  | sockFail
  | connFail
  | connOk
deriving DecidableEq

inductive NetEvent where
  | sockOpen (i : Nat)
  | setSndTimeo (i : Nat) (secs : Int)
  | connectTry (i : Nat)
  | sockClose (i : Nat)
deriving DecidableEq

def connectLoop (timeout : Int) : List AttemptResult → Nat → Int → Int × Option Nat × List NetEvent
  | [], _, ret => (ret, none, [])
  | .sockFail :: rest, i, _ =>
    connectLoop timeout rest (i + 1) MBEDTLS_ERR_NET_SOCKET_FAILED
  | .connFail :: rest, i, _ =>
    let out := connectLoop timeout rest (i + 1) MBEDTLS_ERR_NET_CONNECT_FAILED
    (out.1, out.2.1, NetEvent.sockOpen i :: NetEvent.setSndTimeo i timeout ::
            NetEvent.connectTry i :: NetEvent.sockClose i :: out.2.2)
  | .connOk :: _, i, _ =>
    (0, some i, [NetEvent.sockOpen i, NetEvent.setSndTimeo i timeout, NetEvent.connectTry i])

def mbedtls_net_connect_timeout (timeout : Int) (resolved : Option (List AttemptResult)) :
    Int × Option Nat × List NetEvent :=
  match resolved with
  | none => (MBEDTLS_ERR_NET_UNKNOWN_HOST, none, [])
  | some attempts => connectLoop timeout attempts 0 MBEDTLS_ERR_NET_UNKNOWN_HOST

/-- Checks that every `connectTry i` in the event list is preceded by a
`setSndTimeo i timeout` (the send timeout is installed on each socket
before connecting); `seen` accumulates the sockets already configured. -/
def connectsCovered (timeout : Int) (seen : List Nat) : List NetEvent → Bool
  | [] => true
  | NetEvent.setSndTimeo i s :: rest =>
    connectsCovered timeout (if s = timeout then i :: seen else seen) rest
  | NetEvent.connectTry i :: rest => seen.contains i && connectsCovered timeout seen rest
  | _ :: rest => connectsCovered timeout seen rest

/-- Sockets opened and not yet closed after replaying the events. -/
def openSocketsAux (acc : List Nat) : List NetEvent → List Nat
  | [] => acc
  | NetEvent.sockOpen i :: rest => openSocketsAux (acc ++ [i]) rest
  | NetEvent.sockClose i :: rest => openSocketsAux (acc.erase i) rest
  | _ :: rest => openSocketsAux acc rest

def openSockets (evs : List NetEvent) : List Nat := openSocketsAux [] evs

/-! ### `_TLSConnectNetwork` (lines 180-278) and `HAL_iTLS_Establish` (lines 372-395)

The external library calls are modelled by their return values in
`TLSEnv` (`mbedtls_ssl_config_defaults`, `mbedtls_ssl_conf_auth_extra`,
`mbedtls_ssl_setup`, and the successive `mbedtls_ssl_handshake` returns);
name resolution and the per-address connect outcomes are the `resolved`
field, fed to `mbedtls_net_connect_timeout` above.  `TlsEvent` records
each init/config/free call in program order.  The product key is the
character list before its NUL, so `strlen(product_key) = pk.length`. -/

inductive TlsEvent where
  | sslInit
  | netInit
  | confInit
  | setMaxVer (maj mnr : Nat)
  | setMinVer (maj mnr : Nat)
  | confRng
  | confDbg
  | authExtraSet (len : Nat)
  | sslSetup
  | setBio
  | handshakeStep
  | closeNotify
  | netFree
  | sslFree
  | confFree
  | halAlloc
  | halFree
deriving DecidableEq

structure TLSEnv where
  resolved : Option (List AttemptResult)
  configDefaultsRet : Int
  authExtraRet : Int
  setupRet : Int
  handshakeRets : List Int

/-- Result of the handshake loop (lines 254-259): the loop keeps calling
while the return is `WANT_READ`/`WANT_WRITE`, exits on 0, and aborts on
any other value; `none` when the modelled trace is exhausted first. -/
def hsResult : List Int → Option Int
  | [] => none
  | r :: rest =>
    if r = 0 then some 0
    else if r = MBEDTLS_ERR_SSL_WANT_READ ∨ r = MBEDTLS_ERR_SSL_WANT_WRITE then hsResult rest
    else some r

structure TLSOut where
  ret : Option Int
  conf : SslConf
  events : List TlsEvent
  netEvents : List NetEvent
deriving DecidableEq

/-- The three frees of the `_out:` error path (lines 270-275). -/
def freeEvents : List TlsEvent := [TlsEvent.netFree, TlsEvent.sslFree, TlsEvent.confFree]

/-- Initial events of `_TLSConnectNetwork`: the three `mbedtls_*_init` calls. -/
def initEvs : List TlsEvent := [TlsEvent.sslInit, TlsEvent.netInit, TlsEvent.confInit]

/-- Events of the configuration phase, through the auth-extra call. -/
def confEvs (pk : List Char) : List TlsEvent :=
  initEvs ++
    [TlsEvent.setMaxVer MBEDTLS_SSL_MAJOR_VERSION_3 MBEDTLS_SSL_MINOR_VERSION_3,
     TlsEvent.setMinVer MBEDTLS_SSL_MAJOR_VERSION_3 MBEDTLS_SSL_MINOR_VERSION_3,
     TlsEvent.confRng, TlsEvent.confDbg, TlsEvent.authExtraSet pk.length]

/-- Configuration after the two version pins. -/
def confPinned : SslConf :=
  { initConf with
      maxVer := (MBEDTLS_SSL_MAJOR_VERSION_3, MBEDTLS_SSL_MINOR_VERSION_3),
      minVer := (MBEDTLS_SSL_MAJOR_VERSION_3, MBEDTLS_SSL_MINOR_VERSION_3) }

/-- Control flow of `_TLSConnectNetwork` after the connect step, whose
return value is `cret`: (return value, configuration, TLS-layer events). -/
def TLSConnectCore (pk : List Char) (env : TLSEnv) (cret : Int) :
    Option Int × SslConf × List TlsEvent :=
  if cret ≠ 0 then
    (some cret, initConf, initEvs)
  else if env.configDefaultsRet ≠ 0 then
    (some env.configDefaultsRet, initConf, initEvs ++ freeEvents)
  else if env.authExtraRet ≠ 0 then
    (some env.authExtraRet, confPinned, confEvs pk ++ freeEvents)
  else
    let conf2 : SslConf := { confPinned with authExtraLen := some pk.length }
    if env.setupRet ≠ 0 then
      (some env.setupRet, conf2, confEvs pk ++ [TlsEvent.sslSetup] ++ freeEvents)
    else
      let evs3 := confEvs pk ++ [TlsEvent.sslSetup, TlsEvent.setBio, TlsEvent.handshakeStep]
      match hsResult env.handshakeRets with
      | none => (none, conf2, evs3)
      | some hret =>
        if hret = 0 then (some 0, conf2, evs3)
        else (some hret, conf2, evs3 ++ freeEvents)

def TLSConnectNetwork (pk : List Char) (env : TLSEnv) : TLSOut :=
  let cres := mbedtls_net_connect_timeout SEND_TIMEOUT_SECONDS env.resolved
  let core := TLSConnectCore pk env cres.1
  { ret := core.1, conf := core.2.1, events := core.2.2, netEvents := cres.2.2 }

structure EstablishOut where
  handle : Option TLSDataParams
  events : List TlsEvent
  netEvents : List NetEvent
deriving DecidableEq

/-- Packs `_TLSConnectNetwork`'s outcome into establish's result: a live
handle on 0, or NULL with the handle allocation freed on any error;
`none` when the modelled handshake trace is exhausted.  `mallocOk` below
is whether `HAL_Malloc` succeeds. -/
def establishPack (out : TLSOut) : Option Int → Option EstablishOut
  | none => none
  | some r =>
    if r = 0 then
      some { handle := some { conf := out.conf },
             events := TlsEvent.halAlloc :: out.events, netEvents := out.netEvents }
    else
      some { handle := none,
             events := (TlsEvent.halAlloc :: out.events) ++ [TlsEvent.halFree],
             netEvents := out.netEvents }

def HAL_iTLS_Establish (mallocOk : Bool) (pk : List Char) (env : TLSEnv) :
    Option EstablishOut :=
  if mallocOk then
    establishPack (TLSConnectNetwork pk env) (TLSConnectNetwork pk env).ret
  else some { handle := none, events := [], netEvents := [] }

/-- `_network_ssl_disconnect` (lines 363-370): close notify then the three frees. -/
def network_ssl_disconnect : List TlsEvent :=
  [TlsEvent.closeNotify, TlsEvent.netFree, TlsEvent.sslFree, TlsEvent.confFree]

/-- `HAL_iTLS_Destroy` (lines 397-408). -/
def HAL_iTLS_Destroy (handle : Option TLSDataParams) : Int × List TlsEvent :=
  match handle with
  | none => (0, [])
  | some _ => (0, network_ssl_disconnect ++ [TlsEvent.halFree])

/-- Characters produced by `sprintf(port_str, "%u", port)` (line 387),
without the NUL terminator. -/
def sprintf_u (n : Nat) : List Char :=
  if h : n < 10 then [Char.ofNat (48 + n)]
  else sprintf_u (n / 10) ++ [Char.ofNat (48 + n % 10)]
decreasing_by exact Nat.div_lt_self (by omega) (by omega)

def isHandshakeStep : TlsEvent → Bool
  | TlsEvent.handshakeStep => true
  | _ => false

/-- The events that occur strictly before the handshake loop first runs. -/
def beforeHandshake : List TlsEvent → List TlsEvent
  | [] => []
  | e :: rest => if isHandshakeStep e then [] else e :: beforeHandshake rest

/-! ### Claims C5, C6, C7 -/

/-- Environments used by concrete instances below: a run whose TCP connect
fails at the one resolved address, and a fully successful run. -/
def envConnFail : TLSEnv :=
  { resolved := some [AttemptResult.connFail], configDefaultsRet := 0,
    authExtraRet := 0, setupRet := 0, handshakeRets := [0] }

def envOk : TLSEnv :=
  { resolved := some [AttemptResult.connOk], configDefaultsRet := 0,
    authExtraRet := 0, setupRet := 0, handshakeRets := [0] }

/-- Environment whose handshake fails fatally, and the establish outcome
it produces. -/
def envHsFail : TLSEnv :=
  { resolved := some [AttemptResult.connOk], configDefaultsRet := 0,
    authExtraRet := 0, setupRet := 0, handshakeRets := [-1] }

def outHsFail : EstablishOut :=
  { handle := none,
    events := [TlsEvent.halAlloc, TlsEvent.sslInit, TlsEvent.netInit, TlsEvent.confInit,
      TlsEvent.setMaxVer 3 3, TlsEvent.setMinVer 3 3, TlsEvent.confRng, TlsEvent.confDbg,
      TlsEvent.authExtraSet 0, TlsEvent.sslSetup, TlsEvent.setBio, TlsEvent.handshakeStep,
      TlsEvent.netFree, TlsEvent.sslFree, TlsEvent.confFree, TlsEvent.halFree],
    netEvents := [NetEvent.sockOpen 0, NetEvent.setSndTimeo 0 10, NetEvent.connectTry 0] }

/-! ## Theorems

Helper lemmas come first, then the claim theorems with their witnesses
and counterexamples. -/

theorem sslReadLoop_invariant (len : Nat) :
    ∀ (trace : List Int) (readLen : Nat) (ns r ns' : Int),
      NetStatusOK ns →
      sslReadLoop len trace readLen ns = some (r, ns') →
      (r < 0 → r = -1 ∨ r = -2) ∧ NetStatusOK ns' := by
  intro trace
  induction trace with
  | nil =>
    intro readLen ns r ns' hns h
    rw [sslReadLoop] at h
    unfold NetStatusOK at hns ⊢
    by_cases hl : readLen < len
    · rw [if_pos hl] at h
      simp at h
    · rw [if_neg hl] at h
      by_cases h4 : 0 < readLen <;> simp [h4] at h <;> omega
  | cons ret rest ih =>
    intro readLen ns r ns' hns h
    rw [sslReadLoop] at h
    by_cases hl : readLen < len
    · rw [if_pos hl] at h
      by_cases h1 : 0 < ret
      · rw [if_pos h1] at h
        exact ih _ _ _ _ (Or.inl rfl) h
      · rw [if_neg h1] at h
        by_cases h2 : ret = 0
        · rw [if_pos h2] at h
          unfold NetStatusOK at hns ⊢
          obtain rfl | rfl | rfl := hns <;> simp at h <;> omega
        · rw [if_neg h2] at h
          by_cases h3 : ret = MBEDTLS_ERR_SSL_PEER_CLOSE_NOTIFY
          · rw [if_pos h3] at h
            unfold NetStatusOK
            by_cases h4 : 0 < readLen <;> simp [h4] at h <;> omega
          · rw [if_neg h3] at h
            by_cases h5 : ret = MBEDTLS_ERR_SSL_TIMEOUT ∨ ret = MBEDTLS_ERR_SSL_CONN_EOF ∨
                ret = MBEDTLS_ERR_SSL_SESSION_TICKET_EXPIRED ∨ ret = MBEDTLS_ERR_SSL_NON_FATAL
            · rw [if_pos h5] at h
              simp at h
              unfold NetStatusOK at hns ⊢
              omega
            · rw [if_neg h5] at h
              simp at h
              unfold NetStatusOK
              omega
    · rw [if_neg hl] at h
      unfold NetStatusOK at hns ⊢
      by_cases h4 : 0 < readLen <;> simp [h4] at h <;> omega

theorem sslWriteLoop_invariant (len : Nat) :
    ∀ (trace : List Int) (w : Nat) (r : Int) (wn : Nat),
      sslWriteLoop len trace w = some (r, wn) →
      (0 < r → r = (wn : Int) ∧ len ≤ wn) ∧ (r ≤ 0 → r = 0 ∨ r = -1) ∧ w ≤ wn := by
  intro trace
  induction trace with
  | nil =>
    intro w r wn h
    rw [sslWriteLoop] at h
    by_cases hl : w < len
    · rw [if_pos hl] at h
      simp at h
    · rw [if_neg hl] at h
      simp at h
      omega
  | cons ret rest ih =>
    intro w r wn h
    rw [sslWriteLoop] at h
    by_cases hl : w < len
    · rw [if_pos hl] at h
      by_cases h1 : 0 < ret
      · rw [if_pos h1] at h
        have := ih _ _ _ h
        omega
      · rw [if_neg h1] at h
        by_cases h2 : ret = 0
        · rw [if_pos h2] at h
          simp at h
          omega
        · rw [if_neg h2] at h
          simp at h
          omega
    · rw [if_neg hl] at h
      simp at h
      omega

/-- Consuming a positive ssl_read result adds it to `readLen` and clears `net_status`. -/
theorem sslReadLoop_step_data (len n : Nat) (trace : List Int) (ns : Int)
    (hlen : 0 < len) (hn : 0 < n) :
    sslReadLoop len ((n : Int) :: trace) 0 ns = sslReadLoop len trace n 0 := by
  rw [sslReadLoop, if_pos hlen, if_pos (by exact_mod_cast hn : (0 : Int) < (n : Int))]
  simp

/-! ### Helper lemmas about the connect loop -/

theorem connectLoop_all_connFail (t : Int) :
    ∀ (attempts : List AttemptResult) (i : Nat) (ret0 : Int),
      attempts ≠ [] → (∀ a ∈ attempts, a = AttemptResult.connFail) →
      (connectLoop t attempts i ret0).1 = MBEDTLS_ERR_NET_CONNECT_FAILED ∧
      (connectLoop t attempts i ret0).2.1 = none := by
  intro attempts
  induction attempts with
  | nil => intro i ret0 hne _; exact absurd rfl hne
  | cons a rest ih =>
    intro i ret0 _ hall
    have ha : a = AttemptResult.connFail := hall a (List.mem_cons_self a rest)
    subst ha
    rcases rest with _ | ⟨b, rest'⟩
    · simp [connectLoop]
    · have hr := ih (i + 1) MBEDTLS_ERR_NET_CONNECT_FAILED (by simp)
        (fun x hx => hall x (List.mem_cons_of_mem _ hx))
      simpa [connectLoop] using hr

theorem connectLoop_first_ok (t : Int) :
    ∀ (pre post : List AttemptResult) (i : Nat) (ret0 : Int),
      (∀ a ∈ pre, a ≠ AttemptResult.connOk) →
      (connectLoop t (pre ++ AttemptResult.connOk :: post) i ret0).1 = 0 ∧
      (connectLoop t (pre ++ AttemptResult.connOk :: post) i ret0).2.1 =
        some (i + pre.length) := by
  intro pre
  induction pre with
  | nil => intro post i ret0 _; simp [connectLoop]
  | cons a pre' ih =>
    intro post i ret0 hall
    have ha : a ≠ AttemptResult.connOk := hall a (List.mem_cons_self a pre')
    have hall' : ∀ x ∈ pre', x ≠ AttemptResult.connOk :=
      fun x hx => hall x (List.mem_cons_of_mem _ hx)
    have hr := ih post (i + 1) MBEDTLS_ERR_NET_CONNECT_FAILED hall'
    have hrs := ih post (i + 1) MBEDTLS_ERR_NET_SOCKET_FAILED hall'
    cases a with
    | sockFail =>
      refine ⟨?_, ?_⟩ <;> simp [connectLoop, hrs.1, hrs.2] <;> omega
    | connFail =>
      refine ⟨?_, ?_⟩ <;> simp [connectLoop, hr.1, hr.2] <;> omega
    | connOk => exact absurd rfl ha

theorem connectLoop_covered (t : Int) :
    ∀ (attempts : List AttemptResult) (seen : List Nat) (i : Nat) (ret0 : Int),
      connectsCovered t seen (connectLoop t attempts i ret0).2.2 = true := by
  intro attempts
  induction attempts with
  | nil => intro seen i ret0; simp [connectLoop, connectsCovered]
  | cons a rest ih =>
    intro seen i ret0
    cases a with
    | sockFail => simpa [connectLoop] using ih seen (i + 1) MBEDTLS_ERR_NET_SOCKET_FAILED
    | connFail =>
      simpa [connectLoop, connectsCovered] using
        ih (i :: seen) (i + 1) MBEDTLS_ERR_NET_CONNECT_FAILED
    | connOk => simp [connectLoop, connectsCovered]

theorem connectLoop_no_live_sockets (t : Int) :
    ∀ (attempts : List AttemptResult) (i : Nat) (ret0 : Int),
      (connectLoop t attempts i ret0).1 ≠ 0 →
      openSocketsAux [] (connectLoop t attempts i ret0).2.2 = [] := by
  intro attempts
  induction attempts with
  | nil => intro i ret0 _; simp [connectLoop, openSocketsAux]
  | cons a rest ih =>
    intro i ret0 hret
    cases a with
    | sockFail =>
      have : (connectLoop t rest (i + 1) MBEDTLS_ERR_NET_SOCKET_FAILED).1 ≠ 0 := by
        simpa [connectLoop] using hret
      simpa [connectLoop] using ih (i + 1) MBEDTLS_ERR_NET_SOCKET_FAILED this
    | connFail =>
      have : (connectLoop t rest (i + 1) MBEDTLS_ERR_NET_CONNECT_FAILED).1 ≠ 0 := by
        simpa [connectLoop] using hret
      have hres := ih (i + 1) MBEDTLS_ERR_NET_CONNECT_FAILED this
      simpa [connectLoop, openSocketsAux, List.erase] using hres
    | connOk => exact absurd (by simp [connectLoop]) hret

/-- `netEvents` is whatever the connect step produced, in every branch. -/
theorem TLSConnectNetwork_netEvents (pk : List Char) (env : TLSEnv) :
    (TLSConnectNetwork pk env).netEvents =
      (mbedtls_net_connect_timeout SEND_TIMEOUT_SECONDS env.resolved).2.2 := rfl

/-- In every failing branch after a successful connect, the `_out:` path
frees the network, session and configuration contexts. -/
theorem TLSConnectCore_fail_frees (pk : List Char) (env : TLSEnv) (r : Int)
    (hr : (TLSConnectCore pk env 0).1 = some r) (hrn : r ≠ 0) :
    TlsEvent.netFree ∈ (TLSConnectCore pk env 0).2.2 ∧
    TlsEvent.sslFree ∈ (TLSConnectCore pk env 0).2.2 ∧
    TlsEvent.confFree ∈ (TLSConnectCore pk env 0).2.2 := by
  by_cases h2 : env.configDefaultsRet = 0
  case neg => simp [TLSConnectCore, h2, freeEvents, initEvs]
  by_cases h3 : env.authExtraRet = 0
  case neg => simp [TLSConnectCore, h2, h3, freeEvents, confEvs, initEvs]
  by_cases h4 : env.setupRet = 0
  case neg => simp [TLSConnectCore, h2, h3, h4, freeEvents, confEvs, initEvs]
  cases hh : hsResult env.handshakeRets with
  | none =>
    rw [TLSConnectCore] at hr
    simp [h2, h3, h4, hh] at hr
  | some hret =>
    by_cases h5 : hret = 0
    · subst h5
      rw [TLSConnectCore] at hr
      simp [h2, h3, h4, hh] at hr
      omega
    · simp [TLSConnectCore, h2, h3, h4, hh, h5, freeEvents, confEvs, initEvs]

theorem sprintf_u_length_le :
    ∀ (k n : Nat), 0 < k → n < 10 ^ k → (sprintf_u n).length ≤ k := by
  intro k
  induction k with
  | zero => intro n h0 _; omega
  | succ k ih =>
    intro n _ hn
    rw [sprintf_u]
    by_cases h10 : n < 10
    · rw [dif_pos h10]
      simp
    · rw [dif_neg h10]
      have hk : 0 < k := by
        rcases Nat.eq_zero_or_pos k with rfl | hk
        · norm_num at hn
          omega
        · exact hk
      have hdiv : n / 10 < 10 ^ k := by
        have hmul : n < 10 * 10 ^ k := by
          rw [mul_comm, ← pow_succ]
          exact hn
        exact Nat.div_lt_of_lt_mul hmul
      have := ih (n / 10) hk hdiv
      simp only [List.length_append, List.length_cons, List.length_nil]
      omega

/-! ### Claims C1, C2, C3 -/

/-- C1 (amended): on an established handle, `_network_ssl_read` returns the
positive byte count when data arrives; 0 on a clean timeout (or EOF-family
code) with no data; -2 on a peer close notify when no bytes were read in
this call; -1 on any other library error (even after a partial read); and a
timeout or peer close that arrives after some bytes were already read in
the same call yields the positive byte count, not the timeout/peer-close
outcome (the close is only reported by a later call). -/
theorem C1_read_outcomes :
    (∀ (len : Nat) (ns : Int) (rest : List Int), 0 < len →
       sslReadLoop len (MBEDTLS_ERR_SSL_TIMEOUT :: rest) 0 ns = some (0, ns))
  ∧ (∀ (len : Nat) (ns : Int) (rest : List Int), 0 < len →
       sslReadLoop len (MBEDTLS_ERR_SSL_PEER_CLOSE_NOTIFY :: rest) 0 ns = some (-2, -2))
  ∧ (∀ (len : Nat) (ns e : Int) (rest : List Int), 0 < len → e < 0 →
       e ≠ MBEDTLS_ERR_SSL_PEER_CLOSE_NOTIFY → e ≠ MBEDTLS_ERR_SSL_TIMEOUT →
       e ≠ MBEDTLS_ERR_SSL_CONN_EOF → e ≠ MBEDTLS_ERR_SSL_SESSION_TICKET_EXPIRED →
       e ≠ MBEDTLS_ERR_SSL_NON_FATAL →
       sslReadLoop len (e :: rest) 0 ns = some (-1, -1))
  ∧ (∀ (n : Nat) (ns : Int), 0 < n →
       sslReadLoop n [(n : Int)] 0 ns = some ((n : Int), 0))
  ∧ (∀ (len n : Nat) (ns : Int) (rest : List Int), 0 < n → n < len →
       sslReadLoop len ((n : Int) :: MBEDTLS_ERR_SSL_PEER_CLOSE_NOTIFY :: rest) 0 ns =
         some ((n : Int), -2))
  ∧ (∀ (len n : Nat) (ns : Int) (rest : List Int), 0 < n → n < len →
       sslReadLoop len ((n : Int) :: MBEDTLS_ERR_SSL_TIMEOUT :: rest) 0 ns =
         some ((n : Int), 0)) := by
  refine ⟨?_, ?_, ?_, ?_, ?_, ?_⟩
  · intro len ns rest hlen
    rw [sslReadLoop, if_pos hlen]
    simp [MBEDTLS_ERR_SSL_TIMEOUT, MBEDTLS_ERR_SSL_PEER_CLOSE_NOTIFY]
  · intro len ns rest hlen
    rw [sslReadLoop, if_pos hlen]
    simp [MBEDTLS_ERR_SSL_PEER_CLOSE_NOTIFY]
  · intro len ns e rest hlen he h1 h2 h3 h4 h5
    rw [sslReadLoop, if_pos hlen, if_neg (by omega), if_neg (by omega), if_neg h1,
      if_neg (by simp only [not_or]; exact ⟨h2, h3, h4, h5⟩)]
  · intro n ns hn
    rw [sslReadLoop_step_data n n [] ns hn hn, sslReadLoop, if_neg (by omega), if_pos hn]
  · intro len n ns rest hn hlen
    rw [sslReadLoop_step_data len n _ ns (by omega) hn, sslReadLoop, if_pos hlen]
    simp [MBEDTLS_ERR_SSL_PEER_CLOSE_NOTIFY, hn]
  · intro len n ns rest hn hlen
    rw [sslReadLoop_step_data len n _ ns (by omega) hn, sslReadLoop, if_pos hlen]
    simp [MBEDTLS_ERR_SSL_TIMEOUT, MBEDTLS_ERR_SSL_PEER_CLOSE_NOTIFY]

/-- C1 witness: concrete instances of the amended read outcomes. -/
theorem C1_read_outcomes_witness :
    sslReadLoop 4 [MBEDTLS_ERR_SSL_TIMEOUT] 0 0 = some (0, 0) ∧
    sslReadLoop 4 [(2 : Int), MBEDTLS_ERR_SSL_PEER_CLOSE_NOTIFY] 0 0 = some (2, -2) :=
  ⟨C1_read_outcomes.1 4 0 [] (by decide),
   C1_read_outcomes.2.2.2.2.1 4 2 0 [] (by decide) (by decide)⟩

/-- C1 counterexample: a peer close notify that arrives after 1 byte was
already read in the same call makes the call return 1 (the byte count),
not the -2 outcome the claim assigns to peer close. -/
theorem C1_counterexample :
    sslReadLoop 4 [1, MBEDTLS_ERR_SSL_PEER_CLOSE_NOTIFY] 0 0 = some (1, -2) ∧
    (1 : Int) ≠ -2 := by
  decide

/-- C2 (amended): `_network_ssl_write` loops short writes; a positive
return equals the final `writtenLen` and covers the whole request, but a
zero (timeout) return is produced even when the underlying write timed out
after a partial write, discarding the partial byte count; -1 on error. -/
theorem C2_write_outcomes :
    ∀ (len : Nat) (trace : List Int) (r : Int) (wn : Nat),
      sslWriteLoop len trace 0 = some (r, wn) →
      (0 < r → r = (wn : Int) ∧ len ≤ wn) ∧ (r ≤ 0 → r = 0 ∨ r = -1) :=
  fun len trace r wn h =>
    ⟨(sslWriteLoop_invariant len trace 0 r wn h).1,
     (sslWriteLoop_invariant len trace 0 r wn h).2.1⟩

/-- C2 witness: a completed write of 5 bytes returns 5. -/
theorem C2_write_outcomes_witness :
    (0 < (5 : Int) → (5 : Int) = ((5 : Nat) : Int) ∧ 5 ≤ (5 : Nat)) ∧
    ((5 : Int) ≤ 0 → (5 : Int) = 0 ∨ (5 : Int) = -1) :=
  C2_write_outcomes 5 [3, 2] 5 5 (by decide)

/-- C2 counterexample: a timeout (`mbedtls_ssl_write` returning 0) after a
partial write of 3 bytes makes the call return 0, not the 3 bytes that
were actually written. -/
theorem C2_counterexample :
    sslWriteLoop 5 [3, 0] 0 = some (0, 3) ∧ (0 : Int) ≠ ((3 : Nat) : Int) := by
  decide

/-- C3: every negative value returned by the read loop is -1 or -2 (the
local connection-error / connection-closed codes), and every negative
value returned by the write loop is -1; no other (library or local) error
code ever escapes through read or write. -/
theorem C3_error_codes :
    (∀ (len : Nat) (trace : List Int) (ns r ns' : Int),
       NetStatusOK ns → sslReadLoop len trace 0 ns = some (r, ns') →
       r < 0 → r = -1 ∨ r = -2)
  ∧ (∀ (len : Nat) (trace : List Int) (r : Int) (wn : Nat),
       sslWriteLoop len trace 0 = some (r, wn) → r < 0 → r = -1) := by
  constructor
  · intro len trace ns r ns' hns h hr
    exact (sslReadLoop_invariant len trace 0 ns r ns' hns h).1 hr
  · intro len trace r wn h hr
    have h2 := (sslWriteLoop_invariant len trace 0 r wn h).2.1 (le_of_lt hr)
    omega

/-- C3 witness: the peer-close return value -2 is one of the two local codes. -/
theorem C3_error_codes_witness :
    (-2 : Int) = -1 ∨ (-2 : Int) = -2 :=
  C3_error_codes.1 1 [MBEDTLS_ERR_SSL_PEER_CLOSE_NOTIFY] 0 (-2) (-2) (Or.inl rfl)
    (by decide) (by decide)

/-! ### Claims C4 and C8 -/

/-- C4 (amended): the caller's `timeout_ms` governs only the read path —
`HAL_iTLS_Read` installs it as the configuration's read timeout before the
read loop runs — while `HAL_iTLS_Write` ignores its `timeout_ms` argument
entirely: its result and the handle state are identical for every timeout
value, the blocking of writes being governed instead by the fixed
10-second socket send timeout installed during establish. -/
theorem C4_timeout_governs :
    (∀ (ns : Int) (p : TLSDataParams) (trace : List Int) (len : Nat) (t : Int),
       ((HAL_iTLS_Read ns p trace len t).2).conf.readTimeout = some t)
  ∧ (∀ (p : TLSDataParams) (trace : List Int) (len : Nat) (t t' : Int),
       HAL_iTLS_Write p trace len t = HAL_iTLS_Write p trace len t')
  ∧ SEND_TIMEOUT_SECONDS = 10 := by
  refine ⟨fun ns p trace len t => rfl, fun p trace len t t' => rfl, rfl⟩

/-- C4 counterexample: two calls to `HAL_iTLS_Write` that differ only in
`timeout_ms` (1 ms versus 99999 ms) are indistinguishable — same result,
same handle state — so the caller-specified `timeout_ms` does not govern
the underlying write I/O. -/
theorem C4_counterexample :
    HAL_iTLS_Write { conf := initConf } [2, 2] 4 1 =
      HAL_iTLS_Write { conf := initConf } [2, 2] 4 99999 ∧
    (HAL_iTLS_Write { conf := initConf } [2, 2] 4 1).2 = { conf := initConf } := by
  exact ⟨rfl, rfl⟩

/-- C8: the connection-closed state lives in the file-scope static
`net_status` shared by all handles: a peer close notify after `n` bytes
were read in the current call makes that call return `n` while recording
-2 in the shared static; a later read that obtains 0 further bytes
returns -2; and the result of `HAL_iTLS_Read` does not depend on which
handle is passed, only on the shared static, so a close recorded on one
connection is reported by a read on a different one. -/
theorem C8_net_status_shared :
    (∀ (len n : Nat) (ns : Int) (rest : List Int), 0 < n → n < len →
       sslReadLoop len ((n : Int) :: MBEDTLS_ERR_SSL_PEER_CLOSE_NOTIFY :: rest) 0 ns =
         some ((n : Int), -2))
  ∧ (∀ (len : Nat), 0 < len → sslReadLoop len [0] 0 (-2) = some (-2, -2))
  ∧ (∀ (ns : Int) (p q : TLSDataParams) (trace : List Int) (len : Nat) (t : Int),
       (HAL_iTLS_Read ns p trace len t).1 = (HAL_iTLS_Read ns q trace len t).1) := by
  refine ⟨?_, ?_, fun ns p q trace len t => rfl⟩
  · intro len n ns rest hn hlen
    rw [sslReadLoop_step_data len n _ ns (by omega) hn, sslReadLoop, if_pos hlen]
    simp [MBEDTLS_ERR_SSL_PEER_CLOSE_NOTIFY, hn]
  · intro len hlen
    rw [sslReadLoop, if_pos hlen]
    simp

/-- C8 witness: connection 1 reads 2 bytes then the peer's close notify
(returning 2 and recording -2 in the shared static); a follow-up read
from the shared static -2 that obtains no data returns -2. -/
theorem C8_net_status_shared_witness :
    sslReadLoop 4 [(2 : Int), MBEDTLS_ERR_SSL_PEER_CLOSE_NOTIFY] 0 0 = some (2, -2) ∧
    sslReadLoop 4 [0] 0 (-2) = some (-2, -2) :=
  ⟨C8_net_status_shared.1 4 2 0 [] (by decide) (by decide),
   C8_net_status_shared.2.1 4 (by decide)⟩

/-- C5 (amended): establish returns a handle or null; whenever it returns
null after the handle was allocated, the handle allocation is released;
the TLS/network contexts are additionally released on every failure path
after the TCP connect succeeded; when the connect itself fails the
contexts are not released (the `_out:` frees are skipped by the early
return at line 203), but every socket opened during the connect attempts
has already been closed, so no live OS resource remains. -/
theorem C5_establish_cleanup :
    (∀ (pk : List Char) (env : TLSEnv) (o : EstablishOut),
       HAL_iTLS_Establish true pk env = some o → o.handle = none →
       TlsEvent.halFree ∈ o.events)
  ∧ (∀ (pk : List Char) (env : TLSEnv) (o : EstablishOut),
       HAL_iTLS_Establish true pk env = some o → o.handle = none →
       (mbedtls_net_connect_timeout SEND_TIMEOUT_SECONDS env.resolved).1 = 0 →
       TlsEvent.netFree ∈ o.events ∧ TlsEvent.sslFree ∈ o.events ∧
       TlsEvent.confFree ∈ o.events)
  ∧ (∀ (pk : List Char) (env : TLSEnv),
       (mbedtls_net_connect_timeout SEND_TIMEOUT_SECONDS env.resolved).1 ≠ 0 →
       openSockets (TLSConnectNetwork pk env).netEvents = []) := by
  refine ⟨?_, ?_, ?_⟩
  · intro pk env o h hn
    unfold HAL_iTLS_Establish at h
    rw [if_pos rfl] at h
    cases ho : (TLSConnectNetwork pk env).ret with
    | none => rw [ho] at h; simp [establishPack] at h
    | some r =>
      rw [ho] at h
      simp only [establishPack] at h
      by_cases hr : r = 0
      · rw [if_pos hr] at h
        simp only [Option.some.injEq] at h
        rw [← h] at hn
        simp at hn
      · rw [if_neg hr] at h
        simp only [Option.some.injEq] at h
        rw [← h]
        simp
  · intro pk env o h hn hc
    unfold HAL_iTLS_Establish at h
    rw [if_pos rfl] at h
    have hevs : (TLSConnectNetwork pk env).events = (TLSConnectCore pk env 0).2.2 := by
      simp only [TLSConnectNetwork]
      rw [hc]
    have hret : (TLSConnectNetwork pk env).ret = (TLSConnectCore pk env 0).1 := by
      simp only [TLSConnectNetwork]
      rw [hc]
    cases ho : (TLSConnectNetwork pk env).ret with
    | none => rw [ho] at h; simp [establishPack] at h
    | some r =>
      rw [ho] at h
      simp only [establishPack] at h
      by_cases hr : r = 0
      · rw [if_pos hr] at h
        simp only [Option.some.injEq] at h
        rw [← h] at hn
        simp at hn
      · rw [if_neg hr] at h
        simp only [Option.some.injEq] at h
        have hfrees := TLSConnectCore_fail_frees pk env r (by rw [← hret, ho]) hr
        rw [← h]
        simp only [List.mem_append, List.mem_cons]
        rw [← hevs] at hfrees
        exact ⟨Or.inl (Or.inr hfrees.1), Or.inl (Or.inr hfrees.2.1),
          Or.inl (Or.inr hfrees.2.2)⟩
  · intro pk env hc
    rw [TLSConnectNetwork_netEvents]
    rcases henv : env.resolved with _ | attempts
    · rfl
    · rw [henv] at hc
      exact connectLoop_no_live_sockets SEND_TIMEOUT_SECONDS attempts 0
        MBEDTLS_ERR_NET_UNKNOWN_HOST hc

/-- C5 witness: a failure after a successful connect (the handshake
returns a fatal error) frees the handle allocation. -/
theorem C5_establish_cleanup_witness :
    TlsEvent.halFree ∈ outHsFail.events :=
  C5_establish_cleanup.1 [] envHsFail outHsFail (by decide) (by decide)

/-- C5 counterexample: when the TCP connect fails, establish returns null
and frees the handle, but none of the `mbedtls_net_free` /
`mbedtls_ssl_free` / `mbedtls_ssl_config_free` releases happen even
though the three contexts were initialized. -/
theorem C5_counterexample :
    HAL_iTLS_Establish true [] envConnFail =
      some { handle := none,
             events := [TlsEvent.halAlloc, TlsEvent.sslInit, TlsEvent.netInit,
                        TlsEvent.confInit, TlsEvent.halFree],
             netEvents := [NetEvent.sockOpen 0, NetEvent.setSndTimeo 0 10,
                           NetEvent.connectTry 0, NetEvent.sockClose 0] } ∧
    TlsEvent.confFree ∉ [TlsEvent.halAlloc, TlsEvent.sslInit, TlsEvent.netInit,
                         TlsEvent.confInit, TlsEvent.halFree] := by
  decide

/-- C6: when establish reaches the handshake, the configuration pins both
the minimum and maximum protocol version to TLS 1.2 (major 3 / minor 3)
and registers the product key (length `strlen(product_key)`) as the
out-of-band authentication extra, and all three configuration calls
happen before the handshake loop first runs. -/
theorem C6_version_pin_auth_extra (pk : List Char) (env : TLSEnv)
    (hc : (mbedtls_net_connect_timeout SEND_TIMEOUT_SECONDS env.resolved).1 = 0)
    (hd : env.configDefaultsRet = 0) (ha : env.authExtraRet = 0)
    (hs : env.setupRet = 0) :
    (TLSConnectNetwork pk env).conf.maxVer =
      (MBEDTLS_SSL_MAJOR_VERSION_3, MBEDTLS_SSL_MINOR_VERSION_3) ∧
    (TLSConnectNetwork pk env).conf.minVer =
      (MBEDTLS_SSL_MAJOR_VERSION_3, MBEDTLS_SSL_MINOR_VERSION_3) ∧
    (TLSConnectNetwork pk env).conf.authExtraLen = some pk.length ∧
    TlsEvent.setMaxVer MBEDTLS_SSL_MAJOR_VERSION_3 MBEDTLS_SSL_MINOR_VERSION_3 ∈
      beforeHandshake (TLSConnectNetwork pk env).events ∧
    TlsEvent.setMinVer MBEDTLS_SSL_MAJOR_VERSION_3 MBEDTLS_SSL_MINOR_VERSION_3 ∈
      beforeHandshake (TLSConnectNetwork pk env).events ∧
    TlsEvent.authExtraSet pk.length ∈ beforeHandshake (TLSConnectNetwork pk env).events ∧
    TlsEvent.handshakeStep ∈ (TLSConnectNetwork pk env).events := by
  have hconf : (TLSConnectNetwork pk env).conf = (TLSConnectCore pk env 0).2.1 := by
    simp only [TLSConnectNetwork]
    rw [hc]
  have hevs : (TLSConnectNetwork pk env).events = (TLSConnectCore pk env 0).2.2 := by
    simp only [TLSConnectNetwork]
    rw [hc]
  rw [hconf, hevs]
  cases hh : hsResult env.handshakeRets with
  | none =>
    simp [TLSConnectCore, hd, ha, hs, hh, confPinned, confEvs, initEvs, initConf,
      beforeHandshake, isHandshakeStep]
  | some hret =>
    by_cases h5 : hret = 0 <;>
      simp [TLSConnectCore, hd, ha, hs, hh, h5, confPinned, confEvs, initEvs, initConf,
        beforeHandshake, isHandshakeStep, freeEvents]

/-- C6 witness: a successful run pins both versions to (3, 3) and
registers an auth extra of the key's length. -/
theorem C6_version_pin_auth_extra_witness :
    (TLSConnectNetwork [] envOk).conf.maxVer = (3, 3) ∧
    (TLSConnectNetwork [] envOk).conf.minVer = (3, 3) ∧
    (TLSConnectNetwork [] envOk).conf.authExtraLen = some 0 :=
  have h := C6_version_pin_auth_extra [] envOk (by decide) rfl rfl rfl
  ⟨h.1, h.2.1, h.2.2.1⟩

/-- C7: the Linux connect helper returns the unknown-host error when name
resolution fails; when every attempted address fails at `connect` it
returns the connect-failed error with no connected socket; it succeeds
with the first address whose `connect` succeeds; every `connect` is
preceded by installing the `SO_SNDTIMEO` send timeout on that socket; and
the timeout establish passes is `SEND_TIMEOUT_SECONDS` = 10 seconds. -/
theorem C7_connect_behavior :
    (∀ t : Int, mbedtls_net_connect_timeout t none =
       (MBEDTLS_ERR_NET_UNKNOWN_HOST, none, []))
  ∧ (∀ (t : Int) (attempts : List AttemptResult), attempts ≠ [] →
       (∀ a ∈ attempts, a = AttemptResult.connFail) →
       (mbedtls_net_connect_timeout t (some attempts)).1 =
         MBEDTLS_ERR_NET_CONNECT_FAILED ∧
       (mbedtls_net_connect_timeout t (some attempts)).2.1 = none)
  ∧ (∀ (t : Int) (pre post : List AttemptResult),
       (∀ a ∈ pre, a ≠ AttemptResult.connOk) →
       (mbedtls_net_connect_timeout t (some (pre ++ AttemptResult.connOk :: post))).1 = 0 ∧
       (mbedtls_net_connect_timeout t (some (pre ++ AttemptResult.connOk :: post))).2.1 =
         some pre.length)
  ∧ (∀ (pk : List Char) (env : TLSEnv),
       connectsCovered SEND_TIMEOUT_SECONDS []
         (TLSConnectNetwork pk env).netEvents = true)
  ∧ SEND_TIMEOUT_SECONDS = 10 := by
  refine ⟨fun t => rfl, ?_, ?_, ?_, rfl⟩
  · intro t attempts hne hall
    exact connectLoop_all_connFail t attempts 0 _ hne hall
  · intro t pre post hall
    have h := connectLoop_first_ok t pre post 0 MBEDTLS_ERR_NET_UNKNOWN_HOST hall
    simpa using h
  · intro pk env
    rw [TLSConnectNetwork_netEvents]
    rcases henv : env.resolved with _ | attempts
    · rfl
    · exact connectLoop_covered SEND_TIMEOUT_SECONDS attempts [] 0 _

/-- C7 witness: one address failing at connect gives the connect-failed
error; a failed address followed by a succeeding one connects to index 1. -/
theorem C7_connect_behavior_witness :
    ((mbedtls_net_connect_timeout 10 (some [AttemptResult.connFail])).1 =
       MBEDTLS_ERR_NET_CONNECT_FAILED ∧
     (mbedtls_net_connect_timeout 10 (some [AttemptResult.connFail])).2.1 = none) ∧
    ((mbedtls_net_connect_timeout 10
        (some ([AttemptResult.connFail] ++ AttemptResult.connOk :: []))).1 = 0 ∧
     (mbedtls_net_connect_timeout 10
        (some ([AttemptResult.connFail] ++ AttemptResult.connOk :: []))).2.1 = some 1) :=
  ⟨C7_connect_behavior.2.1 10 [AttemptResult.connFail] (by decide) (by decide),
   C7_connect_behavior.2.2.1 10 [AttemptResult.connFail] [] (by decide)⟩

/-! ### Claims C9 and C10 -/

/-- C9: destroying a null handle returns 0 with no disconnect, no close
notify and no deallocation; destroying a non-null handle sends the TLS
close notify, frees the network, session and configuration contexts and
the handle memory, and returns 0. -/
theorem C9_destroy :
    HAL_iTLS_Destroy none = (0, []) ∧
    ∀ p : TLSDataParams, HAL_iTLS_Destroy (some p) =
      (0, [TlsEvent.closeNotify, TlsEvent.netFree, TlsEvent.sslFree,
           TlsEvent.confFree, TlsEvent.halFree]) :=
  ⟨rfl, fun _ => rfl⟩

/-- C10: every port representable as `uint16_t` formats under `"%u"` to at
most 5 characters, so with the NUL terminator the `sprintf` into the
6-byte `port_str` buffer never overruns it. -/
theorem C10_port_str_fits (port : Nat) (h : port < 65536) :
    (sprintf_u port).length + 1 ≤ 6 := by
  have h5 : port < 10 ^ 5 := by
    norm_num
    omega
  have := sprintf_u_length_le 5 port (by omega) h5
  omega

/-- C10 witness: the largest port, 65535, fits. -/
theorem C10_port_str_fits_witness : (sprintf_u 65535).length + 1 ≤ 6 :=
  C10_port_str_fits 65535 (by omega)

end ITLS

